import Mathlib

/-!
# Verification of the face-recognition kiosk core

Shallow embedding of the core logic of the `face_recognition_linux`
repository: the geometry evaluator and gate predicate (`app.py`,
`src/system/stream_processor.py`), the identity matcher
(`AuthenticationService.authenticate_face` in `src/system/services.py`),
and the session state machine with its command handlers and per-frame
handlers (`test_app.py`).

Real-valued quantities: the code compares Euclidean distances
(`np.linalg.norm`) against non-negative thresholds.  Since `x ↦ x²` is a
strictly monotone bijection on the non-negative reals, every comparison
`dist ≤ thr`, `dist > thr` and every argmin over distances is equivalent
to the same comparison/argmin over squared distances.  The embedding
therefore works with exact squared distances over `ℚ` (computable), with
thresholds squared where they are compared against a distance.
-/

namespace FaceRec

/-- An image buffer.  The session logic never inspects pixel data (a
`frame.copy()` is content-equal to its source), so frames are modelled
as opaque tokens. -/
abbrev Frame := ℕ

/-- A face embedding vector (`face_recognition` produces 128-dim real
vectors); modelled as a list of rationals. -/
abbrev Embedding := List ℚ

/-- A detected face location in `face_recognition` order:
`(top, right, bottom, left)` in pixel coordinates. -/
structure Location where
  top : ℤ
  right : ℤ
  bottom : ℤ
  left : ℤ
deriving DecidableEq, Repr

/-- One detected face per frame: `{"encoding": ..., "location": ...}`
as produced by `FaceProcessor.detect_and_encode_faces`. -/
structure FaceData where
  encoding : Embedding
  location : Location
deriving DecidableEq, Repr

/-- An `(x, y, w, h)` rectangle, as used for the guide box and for the
face box returned by `get_face_properties`. -/
structure Rect where
  x : ℤ
  y : ℤ
  w : ℤ
  h : ℤ
deriving DecidableEq, Repr

/-- `get_box_center` from `app.py` / `test_app.py`: `(x + w // 2, y + h // 2)`
with Python floor division. -/
def get_box_center (b : Rect) : ℤ × ℤ :=
  (b.x + Int.fdiv b.w 2, b.y + Int.fdiv b.h 2)

/-- `get_box_area` from `app.py` / `test_app.py`: `w * h`. -/
def get_box_area (b : Rect) : ℤ :=
  b.w * b.h

/-- `get_face_properties` from `app.py` / `test_app.py`: converts a
`(top, right, bottom, left)` location into an `(x, y, w, h)` box and its
area. -/
def get_face_properties (loc : Location) : Rect × ℤ :=
  let w := loc.right - loc.left
  let h := loc.bottom - loc.top
  (⟨loc.left, loc.top, w, h⟩, w * h)

/-- `calculate_face_metrics` from `app.py` / `test_app.py`, with the
Euclidean center distance replaced by its square (see file header):
returns `(squared center distance, size ratio)`.  The guide rectangle is
a parameter (it is configuration in `stream_processor.py`). -/
def calculate_face_metrics2 (guide : Rect) (face_box : Rect) (face_area : ℤ) : ℚ × ℚ :=
  let gc := get_box_center guide
  let fc := get_box_center face_box
  (((gc.1 - fc.1) ^ 2 + (gc.2 - fc.2) ^ 2 : ℤ) : ℚ)
    |> fun d2 => (d2, (face_area : ℚ) / (get_box_area guide : ℚ))

/-- The `(squared center distance, size ratio)` pair of a detected face,
as computed by `get_face_properties` followed by `calculate_face_metrics`. -/
def face_metrics (guide : Rect) (f : FaceData) : ℚ × ℚ :=
  let p := get_face_properties f.location
  calculate_face_metrics2 guide p.1 p.2

/-- The largest detected face:
`max(detected_faces, key=lambda f: get_face_properties(f["location"])[1])`.
Python's `max` keeps the first maximal element on ties (a later element
replaces the current best only when strictly greater). -/
def largest_face (f : FaceData) (fs : List FaceData) : FaceData :=
  fs.foldl
    (fun best cur =>
      if (get_face_properties best.location).2 < (get_face_properties cur.location).2
      then cur else best)
    f

/-- The gating predicate shared by `generate_frames` (`app.py`),
`handle_authentication_frame` / `handle_registration_frame`
(`test_app.py`) and `StreamProcessor` (`stream_processor.py`):
`distance <= POSITION_THRESHOLD and size_ratio >= SIZE_THRESHOLD`,
stated on the squared distance (`d2 ≤ posThr²` is equivalent to
`dist ≤ posThr` for a non-negative threshold). -/
def gate_ready (d2 size_ratio posThr sizeThr : ℚ) : Prop :=
  d2 ≤ posThr ^ 2 ∧ sizeThr ≤ size_ratio

instance (d2 size_ratio posThr sizeThr : ℚ) :
    Decidable (gate_ready d2 size_ratio posThr sizeThr) :=
  inferInstanceAs (Decidable (d2 ≤ posThr ^ 2 ∧ sizeThr ≤ size_ratio))

/-- The not-ready feedback message shared by all three frame pipelines:
`"顔を枠の中央に" if distance > POSITION_THRESHOLD else "近づいてください"`
("center your face" / "move closer"). -/
def feedback_message (d2 posThr : ℚ) : String :=
  if posThr ^ 2 < d2 then "顔を枠の中央に" else "近づいてください"

/-! ## Identity matcher (`AuthenticationService.authenticate_face`) -/

/-- Squared Euclidean distance between two embeddings. -/
def dist2 (a b : Embedding) : ℚ :=
  ((a.zipWith (fun x y => (x - y) ^ 2) b).foldr (· + ·) 0)

/-- `face_recognition.face_distance(known_encodings, probe)`, squared:
the list of squared distances from the probe to every gallery embedding. -/
def face_distance2 (known : List Embedding) (probe : Embedding) : List ℚ :=
  known.map (fun e => dist2 e probe)

/-- `np.argmin`: the index of the first occurrence of the minimum of a
list (`0` on the empty list, on which NumPy raises). -/
def argminIdx : List ℚ → ℕ
  | [] => 0
  | [_] => 0
  | d :: e :: es =>
    let j := argminIdx (e :: es)
    if (e :: es).getD j 0 < d then j + 1 else 0

/-- `best_match_index = np.argmin(face_distances)` in `authenticate_face`. -/
def best_match_index (known : List Embedding) (probe : Embedding) : ℕ :=
  argminIdx (face_distance2 known probe)

/-- `face_distances[best_match_index]`: the minimum (squared) gallery
distance. -/
def min_distance2 (known : List Embedding) (probe : Embedding) : ℚ :=
  (face_distance2 known probe).getD (best_match_index known probe) 0

/-- A `{"name": ..., "box": ...}` entry of the list returned by
`authenticate_face`. -/
structure MatchResult where
  name : String
  box : Location
deriving DecidableEq, Repr

/-- `AuthenticationService.authenticate_face` (`src/system/services.py`).
The in-memory gallery is the pair of parallel lists `known_encodings`
and `known_user_ids`; `nameMap` is the dict `user_id_to_name_map`
(`dict.get(user_id, "Unknown")` is `(nameMap uid).getD "Unknown"`);
`tol2` is the square of `self.tolerance`. -/
def authenticate_face (known_encodings : List Embedding) (known_user_ids : List String)
    (nameMap : String → Option String) (tol2 : ℚ) (fd : FaceData) : List MatchResult :=
  let ds := face_distance2 known_encodings fd.encoding
  if 0 < ds.length then
    let i := argminIdx ds
    if ds.getD i 0 ≤ tol2 then
      [⟨(nameMap (known_user_ids.getD i "")).getD "Unknown", fd.location⟩]
    else
      [⟨"Unknown", fd.location⟩]
  else
    [⟨"Unknown", fd.location⟩]

/-! ### First-argmin lemmas -/

/-- `argminIdx` of a non-empty list is a valid index. -/
theorem argminIdx_lt_length (l : List ℚ) (h : l ≠ []) : argminIdx l < l.length := by
  induction l with
  | nil => exact absurd rfl h
  | cons d ds ih =>
    cases ds with
    | nil => simp [argminIdx]
    | cons e es =>
      rw [argminIdx]
      split
      · have := ih (by simp)
        simpa using Nat.succ_lt_succ this
      · simp

/-- The value at `argminIdx` is a lower bound for every element. -/
theorem argminIdx_le (l : List ℚ) (j : ℕ) (hj : j < l.length) :
    l.getD (argminIdx l) 0 ≤ l.getD j 0 := by
  induction l generalizing j with
  | nil => simp at hj
  | cons d ds ih =>
    cases ds with
    | nil =>
      have : j = 0 := by simpa using Nat.lt_one_iff.mp (by simpa using hj)
      subst this
      simp [argminIdx]
    | cons e es =>
      rw [argminIdx]
      split
      · rename_i hlt
        rw [List.getD_cons_succ]
        cases j with
        | zero => exact le_of_lt (by simpa using hlt)
        | succ k =>
          rw [List.getD_cons_succ]
          exact ih k (by simpa using hj)
      · rename_i hge
        rw [List.getD_cons_zero]
        cases j with
        | zero => simp
        | succ k =>
          rw [List.getD_cons_succ]
          have h1 : (e :: es).getD (argminIdx (e :: es)) 0 ≤ (e :: es).getD k 0 :=
            ih k (by simpa using hj)
          have h2 : d ≤ (e :: es).getD (argminIdx (e :: es)) 0 := le_of_not_lt hge
          exact le_trans h2 h1

/-- `argminIdx` returns the FIRST index attaining the minimum: every
strictly earlier element is strictly larger. -/
theorem argminIdx_first (l : List ℚ) (j : ℕ) (hj : j < argminIdx l) :
    l.getD (argminIdx l) 0 < l.getD j 0 := by
  induction l generalizing j with
  | nil => simp [argminIdx] at hj
  | cons d ds ih =>
    cases ds with
    | nil => simp [argminIdx] at hj
    | cons e es =>
      rw [argminIdx] at hj ⊢
      split
      · rename_i hlt
        rw [List.getD_cons_succ]
        cases j with
        | zero => simpa using hlt
        | succ k =>
          rw [List.getD_cons_succ]
          have hk : k < argminIdx (e :: es) := by
            simp only [if_pos hlt] at hj
            omega
          exact ih k hk
      · rename_i hge
        simp only [if_neg hge] at hj
        omega

/-! ## Session state machine (`test_app.py`) -/

/-- The kiosk mode enum held in `AppState.mode`. -/
inductive Mode where
  | AUTHENTICATING
  | REGISTRATION_SEARCHING
  | REGISTRATION_FROZEN
deriving DecidableEq, Repr

/-- The process-wide session state (`class AppState` in `test_app.py`):
`mode` and `captured_frame`.  (The `last_auth_result` field is
initialised to `{}` and never written anywhere in the source, so it is
omitted here.) -/
structure AppState where
  mode : Mode
  captured_frame : Option Frame
deriving DecidableEq, Repr

/-- A JSON command response: `{"status": "ok"}` or an error payload with
an HTTP status code. -/
inductive ApiResp where
  | ok
  | error (code : ℕ)
deriving DecidableEq, Repr

/-- The `/start_registration` endpoint: sets
`app_state.mode = "REGISTRATION_SEARCHING"` and returns ok.  It does
not touch `captured_frame`. -/
def start_registration (s : AppState) : AppState × ApiResp :=
  ({ s with mode := .REGISTRATION_SEARCHING }, .ok)

/-- The `/recapture` endpoint: sets mode to `REGISTRATION_SEARCHING`
and clears `captured_frame`. -/
def recapture (_ : AppState) : AppState × ApiResp :=
  ({ mode := .REGISTRATION_SEARCHING, captured_frame := none }, .ok)

/-- The `/cancel_registration` endpoint: sets mode to `AUTHENTICATING`
and clears `captured_frame`. -/
def cancel_registration (_ : AppState) : AppState × ApiResp :=
  ({ mode := .AUTHENTICATING, captured_frame := none }, .ok)

/-! ## Persistence layer (`DataManager` as used by the services) -/

/-- A row of `metadata.json`:
`{"user_id": ..., "name": ..., "registered_at": ...}`. -/
structure UserRecord where
  user_id : String
  name : String
  registered_at : String
deriving DecidableEq, Repr

/-- The on-disk data managed by `DataManager`: the metadata list, the
per-user image directories (`dataset/<user_id>/`), and the saved
encodings file (parallel `encodings` / `user_ids` lists). -/
structure Store where
  metadata : List UserRecord
  images : List (String × List Frame)
  encodings : List Embedding × List String
deriving DecidableEq, Repr

/-- `RegistrationService.register_new_user` (`src/system/services.py`):
raises `ValueError` when the name or image list is empty; otherwise
appends a fresh `UserRecord` to the metadata and saves the images under
the fresh `user_id`.  The generated UUID and the current timestamp are
external inputs `uid` and `now`. -/
def register_new_user (name : String) (images : List Frame) (uid now : String)
    (store : Store) : Except Unit (Store × String) :=
  if name = "" ∨ images = [] then
    .error ()
  else
    .ok ({ store with
            metadata := store.metadata ++ [⟨uid, name, now⟩],
            images := store.images ++ [(uid, images)] }, uid)

/-- The encodings `EncodingService` extracts for one user: for each of
the user's stored images, run the external face model (`extract`) and
keep the encoding only when exactly one face was found in the image. -/
def user_encodings (extract : Frame → List Embedding) (store : Store)
    (u : UserRecord) : List Embedding :=
  ((store.images.lookup u.user_id).getD []).filterMap (fun img =>
    match extract img with
    | [e] => some e
    | _ => none)

/-- `EncodingService.build_encodings_from_dataset`
(`src/system/services.py`): walks the metadata, collects the valid
`(encoding, user_id)` pairs, and overwrites the saved encodings unless
the metadata or the collected pairs are empty (in which case nothing is
saved).  The external face model is the parameter `extract`. -/
def build_encodings_from_dataset (extract : Frame → List Embedding)
    (store : Store) : Store :=
  if store.metadata = [] then store
  else
    let pairs := store.metadata.flatMap
      (fun u => (user_encodings extract store u).map (fun e => (e, u.user_id)))
    if pairs = [] then store
    else { store with encodings := (pairs.map Prod.fst, pairs.map Prod.snd) }

/-- Outcome of a `/submit_registration` call. -/
inductive SubmitResult where
  /-- The 400 rejection response (empty name or no captured frame). -/
  | badRequest
  /-- `ValueError` escaping from `register_new_user` (unreachable from
  the endpoint, whose guard subsumes the service's own check). -/
  | valueError
  /-- `AttributeError` raised by `auth_service.reload_knowledge()`:
  `AuthenticationService` defines no `reload_knowledge` method (only the
  private `_load_knowledge`), so every submit that passes the guard dies
  here, after persisting but before `cancel_registration()`. -/
  | attributeError
deriving DecidableEq, Repr

/-- The `/submit_registration` endpoint (`test_app.py`).  Rejects with
400 when the name is empty or no frame is captured; otherwise registers
the user, rebuilds the encodings, and then evaluates
`auth_service.reload_knowledge()` — an attribute that does not exist —
so the in-flight request raises `AttributeError`: the session state is
left untouched (the `cancel_registration()` reset is never reached),
while the mutations already performed on the store stand. -/
def submit_registration (extract : Frame → List Embedding)
    (user_name uid now : String) (s : AppState) (store : Store) :
    AppState × Store × SubmitResult :=
  match s.captured_frame with
  | none => (s, store, .badRequest)
  | some f =>
    if user_name = "" then
      (s, store, .badRequest)
    else
      match register_new_user user_name [f] uid now store with
      | .error _ => (s, store, .valueError)
      | .ok (store1, _) =>
        (s, build_encodings_from_dataset extract store1, .attributeError)

/-! ## Frame handlers (`test_app.py` / `stream_processor.py`) -/

/-- What `handle_authentication_frame` renders onto the emitted frame
(beyond the always-drawn guide box): nothing when no face is detected,
the `"結果: <name>"` match verdict when the gate passes, or a
position/size feedback message when it does not. -/
inductive AuthRender where
  | noFace
  | authResult (name : String)
  | feedback (message : String)
deriving DecidableEq, Repr

/-- Whether an `AuthRender` is a match verdict (the gate passed and the
identity matcher ran). -/
def AuthRender.isResult : AuthRender → Bool
  | .authResult _ => true
  | _ => false

/-- `handle_authentication_frame` (`test_app.py`) /
`StreamProcessor._handle_authentication_frame`: pick the largest face,
compute the gate metrics, and either run the identity matcher (gate
ready) or choose a feedback message.  Guide rectangle, thresholds,
gallery and tolerance are parameters (configuration in
`stream_processor.py`).  It never writes the session state. -/
def handle_authentication_frame (guide : Rect) (posThr sizeThr : ℚ)
    (known_encodings : List Embedding) (known_user_ids : List String)
    (nameMap : String → Option String) (tol2 : ℚ)
    (faces : List FaceData) : AuthRender :=
  match faces with
  | [] => .noFace
  | f :: fs =>
    let lf := largest_face f fs
    let m := face_metrics guide lf
    if gate_ready m.1 m.2 posThr sizeThr then
      .authResult
        (((authenticate_face known_encodings known_user_ids nameMap tol2 lf).headD
          ⟨"Unknown", lf.location⟩).name)
    else
      .feedback (feedback_message m.1 posThr)

/-- Result of one registration-mode frame: the updated session state,
the emitted frame, and the message drawn onto it (`none` when the frame
is emitted as-is, i.e. no face was detected). -/
structure RegOutcome where
  state : AppState
  emitted : Frame
  drawn_message : Option String
deriving DecidableEq, Repr

/-- `handle_registration_frame` (`test_app.py`) /
`StreamProcessor._handle_registration_frame`: with no detected face,
clear `captured_frame` and emit the frame as-is; otherwise, if the mode
is `REGISTRATION_SEARCHING` and the gate is ready for the largest face,
freeze (mode `REGISTRATION_FROZEN`, `captured_frame` := a copy of the
current frame), then draw the mode-appropriate message. -/
def handle_registration_frame (guide : Rect) (posThr sizeThr : ℚ)
    (faces : List FaceData) (frame : Frame) (s : AppState) : RegOutcome :=
  match faces with
  | [] => ⟨{ s with captured_frame := none }, frame, none⟩
  | f :: fs =>
    let lf := largest_face f fs
    let m := face_metrics guide lf
    let s1 :=
      if s.mode = .REGISTRATION_SEARCHING ∧ gate_ready m.1 m.2 posThr sizeThr then
        ({ mode := .REGISTRATION_FROZEN, captured_frame := some frame } : AppState)
      else s
    let msg :=
      if s1.mode = .REGISTRATION_FROZEN then "この顔で登録します"
      else feedback_message m.1 posThr
    ⟨s1, frame, some msg⟩

/-- The session-state effect of one iteration of the `generate_frames`
loop body (`test_app.py`): in `AUTHENTICATING` mode the frame handler
performs no session-state write; in the registration modes the state is
whatever `handle_registration_frame` leaves. -/
def frame_state_step (guide : Rect) (posThr sizeThr : ℚ)
    (faces : List FaceData) (frame : Frame) (s : AppState) : AppState :=
  match s.mode with
  | .AUTHENTICATING => s
  | _ => (handle_registration_frame guide posThr sizeThr faces frame s).state

/-- The guide rectangle of `app.py` / `test_app.py`:
`((1280 - 350) // 2, (720 - 450) // 2, 350, 450) = (465, 135, 350, 450)`. -/
def GUIDE_BOX_RECT : Rect :=
  ⟨Int.fdiv (1280 - 350) 2, Int.fdiv (720 - 450) 2, 350, 450⟩

/-! ## Shared helper lemmas -/

/-- `build_encodings_from_dataset` writes only the encodings file: the
metadata is unchanged. -/
theorem build_encodings_metadata (extract : Frame → List Embedding) (st : Store) :
    (build_encodings_from_dataset extract st).metadata = st.metadata := by
  unfold build_encodings_from_dataset
  split
  · rfl
  · dsimp only
    split
    · rfl
    · rfl

/-- `build_encodings_from_dataset` writes only the encodings file: the
image store is unchanged. -/
theorem build_encodings_images (extract : Frame → List Embedding) (st : Store) :
    (build_encodings_from_dataset extract st).images = st.images := by
  unfold build_encodings_from_dataset
  split
  · rfl
  · dsimp only
    split
    · rfl
    · rfl

/-! ## Claims -/

/-- **C1**: for every probe embedding, gallery (parallel embedding and
userId lists) and name map, `authenticate_face` returns `"Unknown"` on
an empty gallery; otherwise it selects the entry at minimum distance
(first such entry on ties: the chosen index is valid, its distance is a
lower bound of all gallery distances, and every strictly earlier entry
is strictly farther), returns the mapped name when the minimum distance
is at most the tolerance (equality accepted) and the winning userId is
in the name map, and returns `"Unknown"` when the minimum distance
exceeds the tolerance or the userId is absent.  Distances and the
tolerance are squared (see file header). -/
theorem C1_identity_matcher (known_encodings : List Embedding)
    (known_user_ids : List String) (nameMap : String → Option String)
    (tol2 : ℚ) (fd : FaceData)
    (_hlen : known_encodings.length = known_user_ids.length) :
    (known_encodings = [] →
      authenticate_face known_encodings known_user_ids nameMap tol2 fd
        = [⟨"Unknown", fd.location⟩]) ∧
    (known_encodings ≠ [] →
      best_match_index known_encodings fd.encoding
          < (face_distance2 known_encodings fd.encoding).length ∧
      (∀ j, j < (face_distance2 known_encodings fd.encoding).length →
        min_distance2 known_encodings fd.encoding
          ≤ (face_distance2 known_encodings fd.encoding).getD j 0) ∧
      (∀ j, j < best_match_index known_encodings fd.encoding →
        min_distance2 known_encodings fd.encoding
          < (face_distance2 known_encodings fd.encoding).getD j 0) ∧
      (min_distance2 known_encodings fd.encoding ≤ tol2 →
        ∀ nm, nameMap (known_user_ids.getD
            (best_match_index known_encodings fd.encoding) "") = some nm →
        authenticate_face known_encodings known_user_ids nameMap tol2 fd
          = [⟨nm, fd.location⟩]) ∧
      (min_distance2 known_encodings fd.encoding ≤ tol2 →
        nameMap (known_user_ids.getD
            (best_match_index known_encodings fd.encoding) "") = none →
        authenticate_face known_encodings known_user_ids nameMap tol2 fd
          = [⟨"Unknown", fd.location⟩]) ∧
      (tol2 < min_distance2 known_encodings fd.encoding →
        authenticate_face known_encodings known_user_ids nameMap tol2 fd
          = [⟨"Unknown", fd.location⟩])) := by
  constructor
  · intro h
    subst h
    rfl
  · intro hne
    have hds : face_distance2 known_encodings fd.encoding ≠ [] := by
      simpa [face_distance2] using hne
    have hlen0 : 0 < (face_distance2 known_encodings fd.encoding).length :=
      List.length_pos.mpr hds
    refine ⟨argminIdx_lt_length _ hds,
            fun j hj => argminIdx_le _ j hj,
            fun j hj => argminIdx_first _ j hj, ?_, ?_, ?_⟩
    · intro hle nm hnm
      simp only [authenticate_face, min_distance2, best_match_index] at *
      rw [if_pos hlen0, if_pos hle, hnm]
      rfl
    · intro hle hnone
      simp only [authenticate_face, min_distance2, best_match_index] at *
      rw [if_pos hlen0, if_pos hle, hnone]
      rfl
    · intro hgt
      simp only [authenticate_face, min_distance2, best_match_index] at *
      rw [if_pos hlen0, if_neg (not_le.mpr hgt)]

/-- Witness for C1 at a concrete gallery: probe `[0]`, gallery
`[[0], [1]]` with ids `["u1", "u2"]`, tolerance `0`.  The minimum
distance is `0`, exactly equal to the tolerance, and it is accepted:
the mapped name `"Alice"` is returned. -/
theorem C1_identity_matcher_witness :
    authenticate_face [[0], [1]] ["u1", "u2"]
        (fun s => if s = "u1" then some "Alice" else none) 0
        ⟨[0], ⟨1, 2, 3, 4⟩⟩
      = [⟨"Alice", ⟨1, 2, 3, 4⟩⟩] :=
  ((C1_identity_matcher [[0], [1]] ["u1", "u2"]
      (fun s => if s = "u1" then some "Alice" else none) 0
      ⟨[0], ⟨1, 2, 3, 4⟩⟩ rfl).2 (by simp)).2.2.2.1
    (by norm_num [min_distance2, face_distance2, dist2, best_match_index, argminIdx])
    "Alice"
    (by norm_num [best_match_index, face_distance2, dist2, argminIdx])

/-- **C10**: for every input (any embedding, any location, any gallery
state including empty), `authenticate_face` returns a list of exactly
one result, whose `box` field is the input observation's `location`
unchanged. -/
theorem C10_single_result_box (known_encodings : List Embedding)
    (known_user_ids : List String) (nameMap : String → Option String)
    (tol2 : ℚ) (fd : FaceData) :
    (authenticate_face known_encodings known_user_ids nameMap tol2 fd).length = 1 ∧
    (authenticate_face known_encodings known_user_ids nameMap tol2 fd).map
        MatchResult.box = [fd.location] := by
  unfold authenticate_face
  dsimp only
  split
  · split <;> simp
  · simp

/-- **C2**: for every detected face list, guide region and thresholds,
the authentication frame handler runs the matcher exactly when the gate
is ready (`centerDistance ≤ positionThreshold` and
`sizeRatio ≥ sizeRatioThreshold`, on squared distances); when
`centerDistance > positionThreshold` it emits "顔を枠の中央に"
("center your face") regardless of the size check, and when the gate is
not ready with the distance acceptable it emits "近づいてください"
("move closer"). -/
theorem C2_gate_and_feedback (guide : Rect) (posThr sizeThr tol2 : ℚ)
    (known_encodings : List Embedding) (known_user_ids : List String)
    (nameMap : String → Option String) (f : FaceData) (fs : List FaceData) :
    ((handle_authentication_frame guide posThr sizeThr known_encodings
        known_user_ids nameMap tol2 (f :: fs)).isResult = true ↔
      gate_ready (face_metrics guide (largest_face f fs)).1
        (face_metrics guide (largest_face f fs)).2 posThr sizeThr) ∧
    (posThr ^ 2 < (face_metrics guide (largest_face f fs)).1 →
      handle_authentication_frame guide posThr sizeThr known_encodings
          known_user_ids nameMap tol2 (f :: fs)
        = .feedback "顔を枠の中央に") ∧
    (¬ gate_ready (face_metrics guide (largest_face f fs)).1
        (face_metrics guide (largest_face f fs)).2 posThr sizeThr →
      (face_metrics guide (largest_face f fs)).1 ≤ posThr ^ 2 →
      handle_authentication_frame guide posThr sizeThr known_encodings
          known_user_ids nameMap tol2 (f :: fs)
        = .feedback "近づいてください") := by
  refine ⟨?_, ?_, ?_⟩
  · unfold handle_authentication_frame
    dsimp only
    split
    · simpa [AuthRender.isResult]
    · simpa [AuthRender.isResult]
  · intro hgt
    have hnotready : ¬ gate_ready (face_metrics guide (largest_face f fs)).1
        (face_metrics guide (largest_face f fs)).2 posThr sizeThr := by
      intro hr
      exact absurd hr.1 (not_le.mpr hgt)
    unfold handle_authentication_frame
    dsimp only
    rw [if_neg hnotready]
    unfold feedback_message
    rw [if_pos hgt]
  · intro hnotready hle
    unfold handle_authentication_frame
    dsimp only
    rw [if_neg hnotready]
    unfold feedback_message
    rw [if_neg (not_lt.mpr hle)]

/-- Witness for C2 at the spec's scenario guide `(465, 135, 350, 450)`
with thresholds `(50, 0.5)`: a face 80px off-center gets
"顔を枠の中央に" ("center your face"), and a centered but small face
gets "近づいてください" ("move closer"). -/
theorem C2_gate_and_feedback_witness :
    handle_authentication_frame GUIDE_BOX_RECT 50 (1 / 2) [] []
        (fun _ => none) 0 [⟨[], ⟨171, 710, 549, 410⟩⟩]
      = .feedback "顔を枠の中央に" ∧
    handle_authentication_frame GUIDE_BOX_RECT 50 (1 / 2) [] []
        (fun _ => none) 0 [⟨[], ⟨310, 690, 410, 590⟩⟩]
      = .feedback "近づいてください" :=
  ⟨(C2_gate_and_feedback GUIDE_BOX_RECT 50 (1 / 2) 0 [] [] (fun _ => none)
      ⟨[], ⟨171, 710, 549, 410⟩⟩ []).2.1
     (by norm_num [face_metrics, largest_face, calculate_face_metrics2,
       get_face_properties, get_box_center, get_box_area, GUIDE_BOX_RECT, Int.fdiv]),
   (C2_gate_and_feedback GUIDE_BOX_RECT 50 (1 / 2) 0 [] [] (fun _ => none)
      ⟨[], ⟨310, 690, 410, 590⟩⟩ []).2.2
     (by norm_num [gate_ready, face_metrics, largest_face, calculate_face_metrics2,
       get_face_properties, get_box_center, get_box_area, GUIDE_BOX_RECT, Int.fdiv])
     (by norm_num [face_metrics, largest_face, calculate_face_metrics2,
       get_face_properties, get_box_center, get_box_area, GUIDE_BOX_RECT, Int.fdiv])⟩

/-- **C9**: the gate predicate is monotonic in its thresholds: for
every face and guide region, if the gate is ready at
`(positionThreshold, sizeRatioThreshold)` it stays ready at any larger
position threshold and any smaller size-ratio threshold (the position
threshold being non-negative, as the code's `50` is). -/
theorem C9_gate_monotone (guide : Rect) (f : FaceData) (p q s t : ℚ)
    (hp0 : 0 ≤ p) (hpq : p ≤ q) (hts : t ≤ s)
    (h : gate_ready (face_metrics guide f).1 (face_metrics guide f).2 p s) :
    gate_ready (face_metrics guide f).1 (face_metrics guide f).2 q t := by
  obtain ⟨h1, h2⟩ := h
  exact ⟨le_trans h1 (pow_le_pow_left₀ hp0 hpq 2), le_trans hts h2⟩

/-- Witness for C9: a face ready at `(50, 1/2)` on the app's guide box
is still ready at the loosened thresholds `(60, 1/4)`. -/
theorem C9_gate_monotone_witness :
    gate_ready (face_metrics GUIDE_BOX_RECT ⟨[], ⟨171, 780, 549, 480⟩⟩).1
      (face_metrics GUIDE_BOX_RECT ⟨[], ⟨171, 780, 549, 480⟩⟩).2 60 (1 / 4) :=
  C9_gate_monotone GUIDE_BOX_RECT ⟨[], ⟨171, 780, 549, 480⟩⟩ 50 60 (1 / 2) (1 / 4)
    (by norm_num) (by norm_num) (by norm_num)
    (by norm_num [gate_ready, face_metrics, calculate_face_metrics2,
      get_face_properties, get_box_center, get_box_area, GUIDE_BOX_RECT, Int.fdiv])

/-- **C4**: `submit_registration` invoked with an empty name or with no
captured frame is rejected with an explicit error response, and neither
the session state (mode, capturedFrame) nor the store is mutated: no
user is persisted. -/
theorem C4_submit_rejected (extract : Frame → List Embedding)
    (user_name uid now : String) (s : AppState) (store : Store)
    (h : user_name = "" ∨ s.captured_frame = none) :
    submit_registration extract user_name uid now s store
      = (s, store, .badRequest) := by
  rcases h with h | h
  · cases hc : s.captured_frame with
    | none => simp [submit_registration, hc]
    | some f => simp [submit_registration, hc, h]
  · simp [submit_registration, h]

/-- Witness for C4: submitting the name `"Alice"` with no captured
frame is rejected and changes nothing. -/
theorem C4_submit_rejected_witness :
    submit_registration (fun _ => []) "Alice" "uid1" "now"
        ⟨Mode.REGISTRATION_FROZEN, none⟩ ⟨[], [], ([], [])⟩
      = (⟨Mode.REGISTRATION_FROZEN, none⟩, ⟨[], [], ([], [])⟩, .badRequest) :=
  C4_submit_rejected (fun _ => []) "Alice" "uid1" "now"
    ⟨Mode.REGISTRATION_FROZEN, none⟩ ⟨[], [], ([], [])⟩ (Or.inr rfl)

/-- **C3** (code bug): a valid submit — non-empty name while a frame is
held in `REGISTRATION_FROZEN` — persists the new `UserRecord` and the
captured image, rebuilds the on-disk encodings, and then dies with
`AttributeError` on `auth_service.reload_knowledge()` (a method
`AuthenticationService` does not define): the in-memory gallery is
never refreshed, the captured frame is not discarded, and the mode does
not transition to `AUTHENTICATING`, contradicting the claim. -/
theorem C3_submit_attribute_error (extract : Frame → List Embedding)
    (user_name uid now : String) (s : AppState) (store : Store) (f : Frame)
    (hmode : s.mode = .REGISTRATION_FROZEN)
    (hname : ¬ user_name = "") (hf : s.captured_frame = some f) :
    (submit_registration extract user_name uid now s store).2.2
      = .attributeError ∧
    (submit_registration extract user_name uid now s store).1 = s ∧
    (submit_registration extract user_name uid now s store).1.mode
      = .REGISTRATION_FROZEN ∧
    (submit_registration extract user_name uid now s store).1.captured_frame
      = some f ∧
    (⟨uid, user_name, now⟩ : UserRecord)
      ∈ (submit_registration extract user_name uid now s store).2.1.metadata ∧
    (uid, [f]) ∈ (submit_registration extract user_name uid now s store).2.1.images := by
  have hreg : register_new_user user_name [f] uid now store
      = .ok ({ store with
                metadata := store.metadata ++ [⟨uid, user_name, now⟩],
                images := store.images ++ [(uid, [f])] }, uid) := by
    simp [register_new_user, hname]
  refine ⟨?_, ?_, ?_, ?_, ?_, ?_⟩
  · simp [submit_registration, hf, hname, hreg]
  · simp [submit_registration, hf, hname, hreg]
  · simp [submit_registration, hf, hname, hreg, hmode]
  · simp [submit_registration, hf, hname, hreg]
  · simp [submit_registration, hf, hname, hreg, build_encodings_metadata]
  · simp [submit_registration, hf, hname, hreg, build_encodings_images]

/-- Witness for C3 at a concrete state: submitting `"Alice"` from
`REGISTRATION_FROZEN` with frame `7` raises, keeps the session state,
and persists the metadata row. -/
theorem C3_submit_attribute_error_witness :
    (submit_registration (fun _ => [[1]]) "Alice" "uid1" "now"
        ⟨Mode.REGISTRATION_FROZEN, some 7⟩ ⟨[], [], ([], [])⟩).2.2
      = .attributeError ∧
    (submit_registration (fun _ => [[1]]) "Alice" "uid1" "now"
        ⟨Mode.REGISTRATION_FROZEN, some 7⟩ ⟨[], [], ([], [])⟩).1
      = ⟨Mode.REGISTRATION_FROZEN, some 7⟩ ∧
    (⟨"uid1", "Alice", "now"⟩ : UserRecord)
      ∈ (submit_registration (fun _ => [[1]]) "Alice" "uid1" "now"
          ⟨Mode.REGISTRATION_FROZEN, some 7⟩ ⟨[], [], ([], [])⟩).2.1.metadata := by
  have h := C3_submit_attribute_error (fun _ => [[1]]) "Alice" "uid1" "now"
    ⟨Mode.REGISTRATION_FROZEN, some 7⟩ ⟨[], [], ([], [])⟩ 7 rfl
    (by simp) rfl
  exact ⟨h.1, h.2.1, h.2.2.2.2.1⟩

/-- **C5**: from `REGISTRATION_FROZEN`, `recapture` always moves to
`REGISTRATION_SEARCHING` (never `AUTHENTICATING`) and clears the
captured frame; from any registration state, `cancel_registration`
always moves to `AUTHENTICATING` and clears the captured frame. -/
theorem C5_recapture_cancel (s t : AppState)
    (_hs : s.mode = .REGISTRATION_FROZEN)
    (_ht : t.mode = .REGISTRATION_SEARCHING ∨ t.mode = .REGISTRATION_FROZEN) :
    (recapture s).1.mode = .REGISTRATION_SEARCHING ∧
    ¬ (recapture s).1.mode = .AUTHENTICATING ∧
    (recapture s).1.captured_frame = none ∧
    (cancel_registration t).1.mode = .AUTHENTICATING ∧
    (cancel_registration t).1.captured_frame = none :=
  ⟨rfl, by simp [recapture], rfl, rfl, rfl⟩

/-- Witness for C5 at concrete registration states. -/
theorem C5_recapture_cancel_witness :
    (recapture ⟨Mode.REGISTRATION_FROZEN, some 3⟩).1.mode
      = Mode.REGISTRATION_SEARCHING ∧
    (recapture ⟨Mode.REGISTRATION_FROZEN, some 3⟩).1.captured_frame = none ∧
    (cancel_registration ⟨Mode.REGISTRATION_SEARCHING, some 4⟩).1.mode
      = Mode.AUTHENTICATING ∧
    (cancel_registration ⟨Mode.REGISTRATION_SEARCHING, some 4⟩).1.captured_frame
      = none := by
  have h := C5_recapture_cancel ⟨Mode.REGISTRATION_FROZEN, some 3⟩
    ⟨Mode.REGISTRATION_SEARCHING, some 4⟩ rfl (Or.inl rfl)
  exact ⟨h.1, h.2.2.1, h.2.2.2.1, h.2.2.2.2⟩

/-- **C6 counterexample**: `start_registration` applied in
`AUTHENTICATING` with a stale captured frame does NOT clear it — the
captured frame is still held afterwards, refuting "capturedFrame is
none afterwards, whatever it held before". -/
theorem C6_counterexample :
    (start_registration ⟨Mode.AUTHENTICATING, some 7⟩).1.captured_frame
      = some 7 ∧
    ¬ (start_registration ⟨Mode.AUTHENTICATING, some 7⟩).1.captured_frame
      = none := by
  constructor
  · rfl
  · simp [start_registration]

/-- **C6 (amended)**: the start-registration command, applied in state
`AUTHENTICATING`, transitions the session to `REGISTRATION_SEARCHING`
and leaves `captured_frame` unchanged (it does not clear a stale
captured frame). -/
theorem C6_start_registration_amended (s : AppState)
    (_h : s.mode = .AUTHENTICATING) :
    (start_registration s).1.mode = .REGISTRATION_SEARCHING ∧
    (start_registration s).1.captured_frame = s.captured_frame ∧
    (start_registration s).2 = .ok :=
  ⟨rfl, rfl, rfl⟩

/-- Witness for the amended C6 at the initial state. -/
theorem C6_start_registration_amended_witness :
    (start_registration ⟨Mode.AUTHENTICATING, none⟩).1.mode
      = Mode.REGISTRATION_SEARCHING ∧
    (start_registration ⟨Mode.AUTHENTICATING, none⟩).1.captured_frame
      = none := by
  have h := C6_start_registration_amended ⟨Mode.AUTHENTICATING, none⟩ rfl
  exact ⟨h.1, h.2.1⟩

/-- **C7 counterexample**: a no-face frame processed in
`REGISTRATION_FROZEN` does NOT leave `captured_frame` unchanged — the
registration handler clears it in that state too, refuting "in every
other state (AUTHENTICATING, REGISTRATION_FROZEN) capturedFrame is left
unchanged". -/
theorem C7_counterexample :
    (frame_state_step GUIDE_BOX_RECT 50 (1 / 2) [] 9
        ⟨Mode.REGISTRATION_FROZEN, some 5⟩).captured_frame = none ∧
    ¬ (frame_state_step GUIDE_BOX_RECT 50 (1 / 2) [] 9
        ⟨Mode.REGISTRATION_FROZEN, some 5⟩).captured_frame = some 5 := by
  constructor
  · rfl
  · simp [frame_state_step, handle_registration_frame]

/-- **C7 (amended)**: on a frame with no detected face, the frame
handler emits the frame as-is (no message drawn) and leaves the mode
unchanged; `captured_frame` is left unchanged in `AUTHENTICATING` (the
authentication handler never writes the session state) and is cleared
in both registration states (`REGISTRATION_SEARCHING` and
`REGISTRATION_FROZEN`). -/
theorem C7_no_face_amended (guide : Rect) (posThr sizeThr : ℚ)
    (frame : Frame) (s : AppState) :
    (frame_state_step guide posThr sizeThr [] frame s).mode = s.mode ∧
    (s.mode = .AUTHENTICATING →
      frame_state_step guide posThr sizeThr [] frame s = s) ∧
    (¬ s.mode = .AUTHENTICATING →
      (frame_state_step guide posThr sizeThr [] frame s).captured_frame
        = none) ∧
    (handle_registration_frame guide posThr sizeThr [] frame s).drawn_message
      = none ∧
    (handle_registration_frame guide posThr sizeThr [] frame s).emitted
      = frame := by
  cases hm : s.mode <;>
    simp [frame_state_step, handle_registration_frame, hm]

/-- Witness for the amended C7: a no-face frame in
`REGISTRATION_SEARCHING` keeps the mode and clears the frame. -/
theorem C7_no_face_amended_witness :
    (frame_state_step GUIDE_BOX_RECT 50 (1 / 2) [] 9
        ⟨Mode.REGISTRATION_SEARCHING, some 5⟩).mode
      = Mode.REGISTRATION_SEARCHING ∧
    (frame_state_step GUIDE_BOX_RECT 50 (1 / 2) [] 9
        ⟨Mode.REGISTRATION_SEARCHING, some 5⟩).captured_frame = none := by
  have h := C7_no_face_amended GUIDE_BOX_RECT 50 (1 / 2) 9
    ⟨Mode.REGISTRATION_SEARCHING, some 5⟩
  exact ⟨h.1, h.2.2.1 (by simp)⟩

/-- **C8**: in `REGISTRATION_SEARCHING`, when the gate is ready for the
current frame's largest face, the session transitions to
`REGISTRATION_FROZEN` and stores the current frame as the captured
frame, overwriting whatever was previously captured (the prior value
`c` is arbitrary and does not influence the result; `captured_frame`
being an `Option`, at most one captured frame is ever held). -/
theorem C8_ready_freezes (guide : Rect) (posThr sizeThr : ℚ)
    (f : FaceData) (fs : List FaceData) (frame : Frame) (c : Option Frame)
    (h : gate_ready (face_metrics guide (largest_face f fs)).1
          (face_metrics guide (largest_face f fs)).2 posThr sizeThr) :
    (handle_registration_frame guide posThr sizeThr (f :: fs) frame
        ⟨.REGISTRATION_SEARCHING, c⟩).state
      = ⟨.REGISTRATION_FROZEN, some frame⟩ ∧
    frame_state_step guide posThr sizeThr (f :: fs) frame
        ⟨.REGISTRATION_SEARCHING, c⟩
      = ⟨.REGISTRATION_FROZEN, some frame⟩ := by
  have h1 : (handle_registration_frame guide posThr sizeThr (f :: fs) frame
      ⟨.REGISTRATION_SEARCHING, c⟩).state
      = ⟨.REGISTRATION_FROZEN, some frame⟩ := by
    simp [handle_registration_frame, h]
  exact ⟨h1, by simpa [frame_state_step] using h1⟩

/-- Witness for C8: a well-framed face (the spec's ready scenario)
while searching with a stale captured frame `3` freezes onto the
current frame `9`, overwriting the stale one. -/
theorem C8_ready_freezes_witness :
    (handle_registration_frame GUIDE_BOX_RECT 50 (1 / 2)
        [⟨[], ⟨171, 780, 549, 480⟩⟩] 9
        ⟨Mode.REGISTRATION_SEARCHING, some 3⟩).state
      = ⟨Mode.REGISTRATION_FROZEN, some 9⟩ :=
  (C8_ready_freezes GUIDE_BOX_RECT 50 (1 / 2) ⟨[], ⟨171, 780, 549, 480⟩⟩ []
    9 (some 3)
    (by norm_num [gate_ready, face_metrics, largest_face,
      calculate_face_metrics2, get_face_properties, get_box_center,
      get_box_area, GUIDE_BOX_RECT, Int.fdiv])).1

end FaceRec
